import Mathlib

/-!
Verification of the Clinical-AI-Assistant pipeline.

Shallow embedding of the two Lambda handlers
(`src/lambda/healthscribe/summarize_conversation.py` and
`src/lambda/reporting/patient_reports.py`).  External services (S3,
Transcribe/HealthScribe, SES) are modelled as explicit world parameters;
side effects are returned as explicit effect lists.
-/

set_option maxRecDepth 8192

namespace ClinicalAI

/-! ## Definitions -/

/-- Characters stripped by Python str.strip(). -/
def isPySpace (c : Char) : Bool :=
  c == ' ' || c == '\t' || c == '\n' || c == '\r' || c == '\x0b' || c == '\x0c'

/-- Python `str.strip()`. -/
def pyStrip (s : String) : String :=
  String.mk (((s.data.dropWhile isPySpace).reverse.dropWhile isPySpace).reverse)

/-- Split a character list on a separator character, Python `str.split(sep)`
for a one-character separator.  Always returns a non-empty list. -/
def splitCharL (sep : Char) : List Char → List (List Char)
  | [] => [[]]
  | a :: t =>
    match splitCharL sep t with
    | [] => [[]]
    | r :: rs => if a = sep then [] :: r :: rs else (a :: r) :: rs

/-- Python `str.split(sep)` for a one-character separator. -/
def pySplitChar (sep : Char) (s : String) : List String :=
  (splitCharL sep s.data).map String.mk

/-- Fuelled left-to-right non-overlapping replacement on character lists. -/
def replaceFuel (pat rep : List Char) : Nat → List Char → List Char
  | 0, l => l
  | _ + 1, [] => []
  | n + 1, c :: t =>
    if pat.isPrefixOf (c :: t) then
      rep ++ replaceFuel pat rep n (t.drop (pat.length - 1))
    else
      c :: replaceFuel pat rep n t

/-- Python `str.replace(pat, rep)` (the empty pattern is never used by the
embedded code, so it is mapped to the identity). -/
def pyReplace (pat rep s : String) : String :=
  if pat = "" then s
  else String.mk (replaceFuel pat.data rep.data s.data.length s.data)

/-- Python `str.startswith(pre)`. -/
def pyStartsWith (s pre : String) : Bool :=
  pre.data.isPrefixOf s.data

/-- Python `"".join(xs)`. -/
def strJoin : List String → String
  | [] => ""
  | x :: t => x ++ strJoin t

/-- Python `sep.join(xs)`. -/
def strJoinSep (sep : String) : List String → String
  | [] => ""
  | [x] => x
  | x :: t => x ++ sep ++ strJoinSep sep t

/-- Zero-padded decimal rendering, as in `strftime` fields. -/
def padNum (w n : Nat) : String :=
  let s := toString n
  String.mk (List.replicate (w - s.length) '0') ++ s

/-- The Python exceptions relevant to the embedded handlers.  A
`clientError` stands for `botocore.exceptions.ClientError`. -/
inductive PyErr where
  | keyError
  | indexError
  | typeError
  | valueError (msg : String)
  | clientError
  deriving DecidableEq, Repr

/-- JSON-like values carried by trigger events (leaves are strings, which is
the shape of every field the handlers read). -/
inductive Json where
  | str (s : String)
  | arr (elems : List Json)
  | obj (fields : List (String × Json))

/-- Python `d[k]` subscription.  A missing key raises `KeyError`; string
subscription by a string key raises `TypeError`, as does list subscription. -/
def Json.getItem : Json → String → Except PyErr Json
  | .obj fields, k =>
    match fields.reverse.find? (fun p => p.1 == k) with
    | some p => .ok p.2
    | none => .error .keyError
  | .arr _, _ => .error .typeError
  | .str _, _ => .error .typeError

/-- Python `l[i]` subscription by a non-negative integer index. -/
def Json.getIdx : Json → Nat → Except PyErr Json
  | .arr elems, i =>
    match elems.get? i with
    | some v => .ok v
    | none => .error .indexError
  | .obj _, _ => .error .keyError
  | .str s, i =>
    match s.data.get? i with
    | some c => .ok (.str (String.mk [c]))
    | none => .error .indexError

/-- Expect a string leaf (the handlers only ever read string-valued fields). -/
def Json.asStr : Json → Except PyErr String
  | .str s => .ok s
  | _ => .error .typeError

/-- Python dictionaries with string keys and values, as association lists;
a later binding for the same key wins, as in Python. -/
def dget (d : List (String × String)) (k : String) : Option String :=
  (d.reverse.find? (fun p => p.1 == k)).map (fun p => p.2)

/-- Patient metadata extracted from the uploaded audio object
(dataclass `PatientMetadata`). -/
structure PatientMetadata where
  patient_id : String
  patient_name : String
  patient_email : String
  recording_id : String
  deriving DecidableEq, Repr

/-- Bucket and key of an EventBridge event (dataclass `EventDetail`). -/
structure EventDetail where
  bucket : String
  key : String
  deriving DecidableEq, Repr

/-- Raw field accesses of extract_event_details, before the except-KeyError
conversion: the detail field, then bucket name, then object key. -/
def event_details_chain (event : Json) : Except PyErr EventDetail := do
  let detail ← event.getItem "detail"
  let bucket ← (← detail.getItem "bucket").getItem "name"
  let key ← (← detail.getItem "object").getItem "key"
  return EventDetail.mk (← bucket.asStr) (← key.asStr)

/-- Embedding of extract_event_details: a KeyError from the field accesses
is converted to a ValueError. -/
def extract_event_details (event : Json) : Except PyErr EventDetail :=
  match event_details_chain event with
  | .error .keyError => .error (.valueError "Invalid event structure: missing field")
  | other => other

/-- Embedding of fallback_metadata_from_key: patient id is the text before
the first underscore of the last path segment of the key, defaults
elsewhere. -/
def fallback_metadata_from_key (key : String) : PatientMetadata :=
  let filename := (pySplitChar '/' key).getLastD ""
  let parts := pySplitChar '_' filename
  let patient_id := parts.headD "UNKNOWN"
  PatientMetadata.mk patient_id "Unknown" "" ""

/-- Embedding of extract_metadata_from_s3: the outcome of the head_object
call is the explicit parameter headResult (error representing a
ClientError). -/
def extract_metadata_from_s3 (headResult : Except Unit (List (String × String)))
    (key : String) : PatientMetadata :=
  match headResult with
  | .ok metadata =>
    PatientMetadata.mk
      ((dget metadata "patient-id").getD "UNKNOWN")
      (pyReplace "-" " " ((dget metadata "patient-name").getD "Unknown"))
      ((dget metadata "patient-email").getD "")
      ((dget metadata "recording-id").getD "")
  | .error _ => fallback_metadata_from_key key

/-- A wall-clock instant as read by `datetime.now()`. -/
structure PyDateTime where
  year : Nat
  month : Nat
  day : Nat
  hour : Nat
  minute : Nat
  second : Nat
  deriving DecidableEq, Repr

/-- Embedding of strftime with format %Y%m%d-%H%M%S. -/
def formatTimestamp (t : PyDateTime) : String :=
  padNum 4 t.year ++ padNum 2 t.month ++ padNum 2 t.day ++ "-" ++
    padNum 2 t.hour ++ padNum 2 t.minute ++ padNum 2 t.second

/-- The character class `[a-zA-Z0-9-]` kept by `generate_job_name`. -/
def isJobNameChar (c : Char) : Bool :=
  ('a' ≤ c && c ≤ 'z') || ('A' ≤ c && c ≤ 'Z') || ('0' ≤ c && c ≤ '9') || c == '-'

/-- Embedding of the re.sub call of generate_job_name: delete every
character outside the class [a-zA-Z0-9-]. -/
def reSubKeepJobNameChars (s : String) : String :=
  String.mk (s.data.filter isJobNameChar)

/-- Embedding of generate_job_name; the current instant is the explicit
now parameter. -/
def generate_job_name (patient_id patient_name : String) (now : PyDateTime) : String :=
  let clean_name := reSubKeepJobNameChars (pyReplace " " "" patient_name)
  "hs" ++ "-" ++ patient_id ++ "-" ++ clean_name ++ "-" ++ formatTimestamp now

/-- One Key/Value tag entry of the submitted job. -/
structure Tag where
  Key : String
  Value : String
  deriving DecidableEq, Repr

/-- Embedding of create_healthscribe_tags. -/
def create_healthscribe_tags (metadata : PatientMetadata) : List Tag :=
  [ Tag.mk "patient_id" metadata.patient_id
  , Tag.mk "patient_name" metadata.patient_name
  , Tag.mk "patient_email" metadata.patient_email
  , Tag.mk "recording_id" metadata.recording_id ]

/-- External calls the ingestion handler can make. -/
inductive IngEffect where
  | headObject (key : String)
  | startMedicalScribeJob (jobName : String) (roleArn : String)
      (mediaUri : String) (outputBucket : String) (tags : List Tag)
  deriving DecidableEq, Repr

/-- Result dictionary returned by the ingestion handler. -/
inductive IngestResult where
  | skipped (status reason : String)
  | started (status job_name recording_id patient_id : String)
  deriving DecidableEq, Repr

/-- The external world seen by one ingestion invocation: the `head_object`
outcome per key, the outcome of `start_medical_scribe_job`, the
`TRANSCRIBE_ROLE_ARN` configuration, and the current instant. -/
structure IngestWorld where
  head : String → Except Unit (List (String × String))
  startJob : Except Unit Unit
  roleArn : String
  now : PyDateTime

/-- Embedding of the ingestion handler of summarize_conversation.py, with
its external calls returned as an effect trace. -/
def ingestion_handler (W : IngestWorld) (event : Json) :
    Except PyErr IngestResult × List IngEffect :=
  match extract_event_details event with
  | .error e => (.error e, [])
  | .ok detail =>
    if ¬ pyStartsWith detail.key "input/" then
      (.ok (.skipped "skipped" "File not in input directory"), [])
    else
      let metadata := extract_metadata_from_s3 (W.head detail.key) detail.key
      let job_name := generate_job_name metadata.patient_id metadata.patient_name W.now
      let job_uri := "s3://" ++ detail.bucket ++ "/" ++ detail.key
      let submit : IngEffect :=
        .startMedicalScribeJob job_name W.roleArn job_uri detail.bucket
          (create_healthscribe_tags metadata)
      match W.startJob with
      | .error _ => (.error .clientError, [.headObject detail.key, submit])
      | .ok _ =>
        (.ok (.started "HealthScribe started" job_name
            metadata.recording_id metadata.patient_id),
          [.headObject detail.key, submit])

/-- Resolved patient display fields (dataclass PatientInfo). -/
structure PatientInfo where
  patient_id : String
  patient_name : String
  patient_email : String
  recording_id : String
  visit_date : String
  deriving DecidableEq, Repr

/-- Bucket and key of an S3 event record (dataclass S3EventRecord). -/
structure S3EventRecord where
  bucket : String
  key : String
  deriving DecidableEq, Repr

/-- Period-separated fragments, each stripped, empty fragments dropped:
the list comprehension shared by text_to_bullets and text_to_numbered. -/
def periodItems (text : String) : List String :=
  ((pySplitChar '.' text).map pyStrip).filter (fun p => p ≠ "")

/-- HTML unordered list wrapping the given items. -/
def bulletListHtml (parts : List String) : String :=
  "<ul class=\x27bullet-list\x27>" ++
    strJoin (parts.map (fun p => "<li>" ++ p ++ "</li>")) ++ "</ul>"

/-- HTML ordered list wrapping the given items. -/
def numberedListHtml (parts : List String) : String :=
  "<ol class=\x27numbered-list\x27>" ++
    strJoin (parts.map (fun p => "<li>" ++ p ++ "</li>")) ++ "</ol>"

/-- Embedding of text_to_bullets. -/
def text_to_bullets (text : String) : String :=
  if text = "" then ""
  else bulletListHtml (periodItems (pyReplace " - " ". " text))

/-- Embedding of text_to_numbered. -/
def text_to_numbered (text : String) : String :=
  if text = "" then ""
  else numberedListHtml (periodItems text)

/-- `generate_html_styles` (verbatim CSS block). -/
def generate_html_styles : String :=
  "\nbody \x7b\n    font-family: Arial, Helvetica, sans-serif;\n    background-color: #F8FAFC;\n    max-width: 800px;\n    margin: auto;\n    padding: 20px;\n    color: #0F172A;\n\x7d\n\n.header \x7b\n    background: linear-gradient(135deg, #2563EB, #1D4ED8);\n    color: white;\n    padding: 30px;\n    border-radius: 10px;\n    margin-bottom: 30px;\n\x7d\n\n.header h1 \x7b\n    margin: 0 0 10px 0;\n\x7d\n\n.patient-info \x7b\n    display: flex;\n    gap: 20px;\n    font-size: 14px;\n\x7d\n\n.patient-badge \x7b\n    background: rgba(255,255,255,0.2);\n    padding: 5px 12px;\n    border-radius: 5px;\n    font-weight: bold;\n\x7d\n\n.section \x7b\n    background: white;\n    padding: 22px;\n    margin-bottom: 20px;\n    border-radius: 8px;\n    border-left: 4px solid #2563EB;\n\x7d\n\n.section-title \x7b\n    color: #2563EB;\n    font-size: 17px;\n    font-weight: bold;\n    margin-bottom: 12px;\n    text-transform: uppercase;\n\x7d\n\n.section-content \x7b\n    color: #334155;\n    font-size: 15px;\n\x7d\n\n.bullet-list \x7b\n    padding-left: 20px;\n    margin: 0;\n\x7d\n\n.bullet-list li \x7b\n    margin-bottom: 6px;\n\x7d\n\n.numbered-list \x7b\n    padding-left: 22px;\n\x7d\n\n.footer-note \x7b\n    background: #FEF3C7;\n    border-left: 4px solid #F59E0B;\n    padding: 15px;\n    margin-top: 30px;\n    border-radius: 5px;\n    font-size: 13px;\n\x7d\n\n.footer \x7b\n    text-align: center;\n    margin-top: 30px;\n    font-size: 13px;\n    color: #64748B;\n\x7d\n"

/-- Section title lookup table SECTION_TITLES. -/
def SECTION_TITLES : List (String × String) :=
  [ ("CHIEF_COMPLAINT", "Chief Complaint")
  , ("HISTORY_OF_PRESENT_ILLNESS", "History of Present Illness")
  , ("PHYSICAL_EXAMINATION", "Physical Examination")
  , ("ASSESSMENT", "Assessment & Diagnosis")
  , ("PLAN_OF_TREATMENT", "Treatment Plan")
  , ("MEDICATIONS", "Medications")
  , ("FAMILY_HISTORY", "Family History")
  , ("SOCIAL_HISTORY", "Social History")
  , ("REVIEW_OF_SYSTEMS", "Review of Systems") ]

/-- Helper for Python str.title(): tracks whether the previous character
was alphabetic. -/
def pyTitleGo : Bool → List Char → List Char
  | _, [] => []
  | prevAlpha, c :: t =>
    (if c.isAlpha then (if prevAlpha then c.toLower else c.toUpper) else c) ::
      pyTitleGo c.isAlpha t

/-- Python str.title(). -/
def pyTitle (s : String) : String :=
  String.mk (pyTitleGo false s.data)

/-- One SummarizedSegment entry of a HealthScribe summary document. -/
structure ScribeSegment where
  SummarizedSegment : Option String
  deriving DecidableEq, Repr

/-- One clinical section of a HealthScribe summary document; fields are
optional because the code reads them with dictionary defaults. -/
structure ScribeSection where
  SectionName : Option String
  Summary : Option (List ScribeSegment)
  deriving DecidableEq, Repr

/-- Concatenated fragment text of a section: the segments space-joined and
stripped, as computed inside build_section_html. -/
def sectionRawText (sec : ScribeSection) : String :=
  pyStrip (strJoinSep " "
    ((sec.Summary.getD []).map (fun s => s.SummarizedSegment.getD "")))

/-- Wrapper div emitted for one rendered section. -/
def sectionDivHtml (title content : String) : String :=
  "\n<div class=\"section\">\n    <div class=\"section-title\">" ++ title ++
    "</div>\n    <div class=\"section-content\">" ++ content ++
    "</div>\n</div>\n"

/-- Embedding of build_section_html. -/
def build_section_html (sec : ScribeSection) : String :=
  let section_name := (sec.SectionName).getD ""
  let summary := (sec.Summary).getD []
  if summary.isEmpty then ""
  else
    let title := (dget SECTION_TITLES section_name).getD
      (pyTitle (pyReplace "_" " " section_name))
    let raw_text := sectionRawText sec
    if raw_text = "" then ""
    else
      let content :=
        if section_name = "PLAN_OF_TREATMENT" then text_to_numbered raw_text
        else text_to_bullets raw_text
      sectionDivHtml title content

/-- Document header emitted by build_patient_report. -/
def reportHeaderHtml (patient_info : PatientInfo) : String :=
  "\n<!DOCTYPE html>\n<html>\n<head>\n<meta charset=\"UTF-8\">\n<title>Clinical Visit Summary - " ++
    patient_info.patient_name ++ "</title>\n<style>\n" ++ generate_html_styles ++
    "\n</style>\n</head>\n<body>\n\n<div class=\"header\">\n    <h1>Clinical Visit Summary</h1>\n    <div class=\"patient-info\">\n        <div><strong>Patient:</strong> " ++
    patient_info.patient_name ++
    "</div>\n        <div class=\"patient-badge\">" ++ patient_info.patient_id ++
    "</div>\n        <div><strong>Date:</strong> " ++ patient_info.visit_date ++
    "</div>\n    </div>\n</div>\n"

/-- Document footer emitted by build_patient_report. -/
def reportFooterHtml : String :=
  "\n<div class=\"footer-note\">\n<strong>Note:</strong> This is an AI-generated summary for your convenience.\nPlease review and verify all information.\n</div>\n\n<div class=\"footer\">\n<p><strong>MediVoice AI</strong> \u2013 Clinical Documentation Assistant</p>\n<p>Generated using AWS HealthScribe</p>\n<p>\u00a9 2026 All rights reserved</p>\n</div>\n\n</body>\n</html>\n"

/-- Embedding of build_patient_report. -/
def build_patient_report (sections : List ScribeSection)
    (patient_info : PatientInfo) : String :=
  reportHeaderHtml patient_info ++
    strJoin (sections.map build_section_html) ++ reportFooterHtml

/-- Raw field accesses of extract_s3_event_record, before the except-KeyError
conversion. -/
def s3_record_chain (event : Json) : Except PyErr S3EventRecord := do
  let record ← (← event.getItem "Records").getIdx 0
  let bucket ← (← (← record.getItem "s3").getItem "bucket").getItem "name"
  let key ← (← (← record.getItem "s3").getItem "object").getItem "key"
  return S3EventRecord.mk (← bucket.asStr) (← key.asStr)

/-- Embedding of extract_s3_event_record: a KeyError from the field accesses
is converted to a ValueError. -/
def extract_s3_event_record (event : Json) : Except PyErr S3EventRecord :=
  match s3_record_chain event with
  | .error .keyError => .error (.valueError "Invalid S3 event structure: missing field")
  | other => other

/-- Embedding of convert_tags_to_dict (a Python dict comprehension, so a
later duplicate key wins under dget). -/
def convert_tags_to_dict (tags_list : List Tag) : List (String × String) :=
  tags_list.map (fun t => (t.Key, t.Value))

/-- A MedicalScribeJob record as returned by get_medical_scribe_job; fields
are optional because the code reads them with dictionary defaults. -/
structure MedicalScribeJob where
  Tags : Option (List Tag)
  CompletionTime : Option String
  MediaFileUri : Option String

/-- Audio object key recovered from the media URI inside
extract_audio_metadata. -/
def audio_key_of (bucket media_uri : String) : String :=
  pyReplace ("s3://" ++ bucket ++ "/") "" media_uri

/-- Embedding of extract_audio_metadata, given the outcome of the
head_object call on the audio key. -/
def extract_audio_metadata (headResult : Except Unit (List (String × String))) :
    Option String × Option String :=
  match headResult with
  | .ok metadata => (dget metadata "visit-id", dget metadata "patient-id")
  | .error _ => (none, none)

/-- The completed receipt record written by create_receipt. -/
structure Receipt where
  status : String
  report_path : String
  job_name : String
  completed_at : String
  deriving DecidableEq, Repr

/-- Bodies written to S3 by the report handler. -/
inductive S3PutBody where
  | htmlReport (body : String)
  | receiptJson (receipt : Receipt)
  deriving DecidableEq, Repr

/-- External calls the report handler can make. -/
inductive Effect where
  | getMedicalScribeJob (jobName : String)
  | headObject (key : String)
  | getObject (key : String)
  | putObject (key : String) (body : S3PutBody)
  | sendEmail (source destination subject htmlBody : String)
  deriving DecidableEq, Repr

/-- Embedding of get_patient_info_from_job, with the job lookup and the
head_object lookups supplied by the world and traced as effects. -/
def get_patient_info_from_job
    (jobs : String → Except Unit MedicalScribeJob)
    (head : String → Except Unit (List (String × String)))
    (job_name bucket : String) :
    (PatientInfo × Option String × Option String) × List Effect :=
  match jobs job_name with
  | .error _ =>
    ((PatientInfo.mk "N/A" "Patient" "" "" "N/A", none, none),
     [.getMedicalScribeJob job_name])
  | .ok job =>
    let tags := convert_tags_to_dict (job.Tags.getD [])
    let visit_date :=
      match job.CompletionTime with
      | some completion => (pySplitChar 'T' completion).headD ""
      | none => "N/A"
    let patient_info0 := PatientInfo.mk
      ((dget tags "patient_id").getD "N/A")
      ((dget tags "patient_name").getD "Patient")
      ((dget tags "patient_email").getD "")
      ((dget tags "recording_id").getD "")
      visit_date
    let media_uri := job.MediaFileUri.getD ""
    if media_uri = "" then
      ((patient_info0, none, none), [.getMedicalScribeJob job_name])
    else
      let audio_key := audio_key_of bucket media_uri
      let vp := extract_audio_metadata (head audio_key)
      let patient_info1 :=
        match head audio_key with
        | .ok metadata =>
          let withEmail :=
            if (dget metadata "patient-email").getD "" ≠ "" then
              { patient_info0 with
                  patient_email := (dget metadata "patient-email").getD "" }
            else patient_info0
          if (dget metadata "patient-name").getD "" ≠ "" then
            { withEmail with
                patient_name :=
                  pyReplace "-" " " ((dget metadata "patient-name").getD "") }
          else withEmail
        | .error _ => patient_info0
      ((patient_info1, vp.1, vp.2),
       [.getMedicalScribeJob job_name, .headObject audio_key,
        .headObject audio_key])

/-- Python truthiness of an optional string (None and the empty string are
falsy). -/
def pyFalsyStrOpt (o : Option String) : Bool :=
  match o with
  | none => true
  | some s => s == ""

/-- Embedding of create_receipt: returns the receipt location handed back to
the caller together with the write performed, if any.  The completed_at
field is utcnow().isoformat() + Z, with the isoformat output supplied as
nowIso. -/
def create_receipt (nowIso : String) (patient_id visit_id : Option String)
    (report_key job_name : String) :
    Option String × Option (String × Receipt) :=
  if pyFalsyStrOpt visit_id || pyFalsyStrOpt patient_id then (none, none)
  else
    let receipt := Receipt.mk "COMPLETED" report_key job_name (nowIso ++ "Z")
    let receipt_key :=
      "input" ++ "/" ++ patient_id.getD "" ++ "/" ++ visit_id.getD "" ++
        "/" ++ "receipt.json"
    (some receipt_key, some (receipt_key, receipt))

/-- Embedding of send_patient_email: returns the send performed, if any.
The SOURCE_EMAIL configuration is the explicit source_email parameter. -/
def send_patient_email (patient_info : PatientInfo)
    (source_email : Option String) (report_html : String) : Option Effect :=
  if patient_info.patient_email = "" then none
  else
    match source_email with
    | none => none
    | some src =>
      if src = "" then none
      else some (.sendEmail src patient_info.patient_email
        ("Your Visit Summary - " ++ patient_info.patient_name) report_html)

/-- Result dictionary returned by the report handler. -/
structure ReportResult where
  status : String
  report_key : String
  receipt_key : Option String
  deriving DecidableEq, Repr

/-- The external world seen by one report invocation. -/
structure ReportWorld where
  jobs : String → Except Unit MedicalScribeJob
  head : String → Except Unit (List (String × String))
  summaryDoc : String → Except Unit (List ScribeSection)
  sourceEmail : Option String
  sesOutcome : Except Unit Unit
  nowIso : String

/-- Tail of the report handler: the email attempt inside try/except
ClientError.  A transport failure is caught and logged, so both outcomes
return the same successful result. -/
def finish_after_email (res : ReportResult) (effs : List Effect)
    (sendAttempt : Option Effect) (sesOutcome : Except Unit Unit) :
    Except PyErr ReportResult × List Effect :=
  match sendAttempt with
  | none => (.ok res, effs)
  | some eff =>
    match sesOutcome with
    | .ok _ => (.ok res, effs ++ [eff])
    | .error _ => (.ok res, effs ++ [eff])

/-- Success path of the report handler after the clinical documentation has
loaded: render the report, save it, create the receipt, attempt the email. -/
def report_render_phase (W : ReportWorld) (record : S3EventRecord)
    (sections : List ScribeSection) : Except PyErr ReportResult × List Effect :=
  let job_name := (pySplitChar '/' record.key).headD ""
  let pr := get_patient_info_from_job W.jobs W.head job_name record.bucket
  let report_html := build_patient_report sections pr.1.1
  let report_key := "patient-reports" ++ "/" ++ job_name ++ "/" ++ "summary.html"
  let cr := create_receipt W.nowIso pr.1.2.2 pr.1.2.1 report_key job_name
  let receiptEffs : List Effect :=
    match cr.2 with
    | some kr => [.putObject kr.1 (.receiptJson kr.2)]
    | none => []
  let effs := pr.2 ++
    [.getObject record.key, .putObject report_key (.htmlReport report_html)] ++
    receiptEffs
  finish_after_email (ReportResult.mk "Report generated" report_key cr.1)
    effs (send_patient_email pr.1.1 W.sourceEmail report_html) W.sesOutcome

/-- Embedding of the report handler of patient_reports.py, with its external
calls returned as an effect trace. -/
def report_handler (W : ReportWorld) (event : Json) :
    Except PyErr ReportResult × List Effect :=
  match extract_s3_event_record event with
  | .error e => (.error e, [])
  | .ok record =>
    match W.summaryDoc record.key with
    | .error _ =>
      (.error .clientError,
        (get_patient_info_from_job W.jobs W.head
          ((pySplitChar '/' record.key).headD "") record.bucket).2 ++
        [.getObject record.key])
    | .ok sections => report_render_phase W record sections

/-- Job name derived from the trigger key inside the report handler. -/
def rp_job_name (record : S3EventRecord) : String :=
  (pySplitChar '/' record.key).headD ""

/-- Patient-info phase of the report handler. -/
def rp_pr (W : ReportWorld) (record : S3EventRecord) :
    (PatientInfo × Option String × Option String) × List Effect :=
  get_patient_info_from_job W.jobs W.head (rp_job_name record) record.bucket

/-- Report key used by save_html_report. -/
def rp_report_key (record : S3EventRecord) : String :=
  "patient-reports" ++ "/" ++ rp_job_name record ++ "/" ++ "summary.html"

/-- Rendered HTML of the report handler run. -/
def rp_html (W : ReportWorld) (record : S3EventRecord)
    (sections : List ScribeSection) : String :=
  build_patient_report sections (rp_pr W record).1.1

/-- Receipt outcome of the report handler run. -/
def rp_cr (W : ReportWorld) (record : S3EventRecord) :
    Option String × Option (String × Receipt) :=
  create_receipt W.nowIso (rp_pr W record).1.2.2 (rp_pr W record).1.2.1
    (rp_report_key record) (rp_job_name record)

/-- Concrete section used to instantiate C4. -/
def sectionC4 : ScribeSection :=
  ScribeSection.mk (some "PLAN_OF_TREATMENT")
    (some [ScribeSegment.mk (some "Rest. Hydrate. Follow up.")])

/-- Concrete whitespace-only section used to instantiate C5. -/
def sectionC5 : ScribeSection :=
  ScribeSection.mk (some "ASSESSMENT") (some [ScribeSegment.mk (some "   ")])

/-- Concrete ingestion world used to instantiate handler-level witnesses. -/
def WIngC3 : IngestWorld :=
  IngestWorld.mk (fun _ => .error ()) (.ok ()) "role-arn"
    (PyDateTime.mk 2026 1 1 0 0 0)

/-- Concrete event outside the input path, used to instantiate C3. -/
def eventC3 : Json :=
  .obj [("detail", .obj
    [("bucket", .obj [("name", .str "b")]),
     ("object", .obj [("key", .str "outside/a.webm")])])]

/-- Concrete report world used to instantiate handler-level witnesses. -/
def WRepC2 : ReportWorld :=
  ReportWorld.mk (fun _ => .error ()) (fun _ => .error ()) (fun _ => .ok [])
    none (.ok ()) "2026-01-01T00:00:00"

/-- Concrete report trigger event used to instantiate handler-level
witnesses. -/
def eventRep : Json :=
  .obj [("Records", .arr [.obj [("s3", .obj
    [("bucket", .obj [("name", .str "b")]),
     ("object", .obj [("key", .str "hs-job/summary.json")])])]])]

/-- Concrete patient metadata used by the C1 analysis. -/
def mC1 : PatientMetadata :=
  PatientMetadata.mk "PAT-1" "Jane Doe" "tag@x.com" "R1"

/-- Concrete job carrying exactly the tags created for mC1, used by the C1
counterexample. -/
def jobC1 : MedicalScribeJob :=
  MedicalScribeJob.mk (some (create_healthscribe_tags mC1))
    (some "2026-01-01T00:00:00") (some "s3://b/input/a.webm")

/-- Job lookup world for the C1 counterexample. -/
def WjobsC1 : String → Except Unit MedicalScribeJob := fun _ => .ok jobC1

/-- Audio-attribute world for the C1 counterexample: the stored attributes
carry a different patient email than the tags. -/
def WheadC1 : String → Except Unit (List (String × String)) :=
  fun _ => .ok [("patient-email", "head@y.com")]

/-- Error-returning audio-attribute world used by the C1 witness. -/
def WheadErr : String → Except Unit (List (String × String)) :=
  fun _ => .error ()

/-- Job lookup world without a media URI, used by the C1 witness. -/
def WjobsC1NoMedia : String → Except Unit MedicalScribeJob :=
  fun _ => .ok (MedicalScribeJob.mk (some (create_healthscribe_tags mC1))
    (some "2026-01-01T00:00:00") none)

/-- Audio-attribute world for the C10 counterexample: the attributes
contain a patient-email key whose value is empty. -/
def WheadC10 : String → Except Unit (List (String × String)) :=
  fun _ => .ok [("patient-email", "")]

/-- Job world with distinct tag values, used by the C10 witness. -/
def WjobsC10W : String → Except Unit MedicalScribeJob :=
  fun _ => .ok (MedicalScribeJob.mk
    (some [Tag.mk "patient_email" "tag@x.com", Tag.mk "patient_name" "Jane Doe"])
    none (some "s3://b/input/a.webm"))

/-- Audio-attribute world with non-empty override attributes, used by the
C10 witness. -/
def WheadC10W : String → Except Unit (List (String × String)) :=
  fun _ => .ok [("patient-email", "head@y.com"), ("patient-name", "Ann-Lee")]

/-! ## Theorems -/

theorem splitCharL_ne_nil (sep : Char) (l : List Char) : splitCharL sep l ≠ [] := by
  induction l with
  | nil => simp [splitCharL]
  | cons a t ih =>
    simp only [splitCharL]
    match h : splitCharL sep t with
    | [] => exact absurd h ih
    | r :: rs =>
      by_cases hc : a = sep <;> simp [hc]

theorem splitCharL_head (sep : Char) (l : List Char) :
    (splitCharL sep l).headD [] = l.takeWhile (fun c => c ≠ sep) := by
  induction l with
  | nil => simp [splitCharL]
  | cons a t ih =>
    simp only [splitCharL]
    match h : splitCharL sep t with
    | [] => exact absurd h (splitCharL_ne_nil sep t)
    | r :: rs =>
      rw [h] at ih
      simp only [List.headD, ne_eq, decide_not] at ih
      by_cases hc : a = sep
      · simp [hc, List.takeWhile_cons]
      · simp [hc, List.takeWhile_cons, ih]

theorem replaceFuel_single (a : Char) (rep : List Char) :
    ∀ (n : Nat) (l : List Char), l.length ≤ n →
      replaceFuel [a] rep n l =
        l.foldr (fun c acc => (if c = a then rep else [c]) ++ acc) [] := by
  intro n
  induction n with
  | zero =>
    intro l hl
    have : l = [] := List.eq_nil_of_length_eq_zero (Nat.le_zero.mp hl)
    simp [this, replaceFuel]
  | succ n ih =>
    intro l hl
    match l with
    | [] => simp [replaceFuel]
    | c :: t =>
      have ht : t.length ≤ n := Nat.le_of_succ_le_succ (by simpa using hl)
      by_cases hc : c = a
      · have hpre : List.isPrefixOf [a] (c :: t) = true := by
          simp [List.isPrefixOf, hc]
        simp [replaceFuel, hpre, hc, ih t ht]
      · have hpre : List.isPrefixOf [a] (c :: t) = false := by
          simp [List.isPrefixOf]
          intro h
          exact absurd h.symm hc
        simp [replaceFuel, hpre, hc, ih t ht]

theorem foldr_delete_eq_filter (a : Char) (l : List Char) :
    l.foldr (fun c acc => (if c = a then [] else [c]) ++ acc) [] =
      l.filter (fun c => c ≠ a) := by
  induction l with
  | nil => simp
  | cons c t ih =>
    by_cases hc : c = a <;> simp [List.filter_cons, hc, ih]

theorem foldr_subst_eq_map (a b : Char) (l : List Char) :
    l.foldr (fun c acc => (if c = a then [b] else [c]) ++ acc) [] =
      l.map (fun c => if c = a then b else c) := by
  induction l with
  | nil => simp
  | cons c t ih =>
    by_cases hc : c = a <;> simp [hc, ih]

theorem replaceFuel_delete (a : Char) (n : Nat) (l : List Char) (h : l.length ≤ n) :
    replaceFuel [a] [] n l = l.filter (fun c => c ≠ a) := by
  rw [replaceFuel_single a [] n l h]
  exact foldr_delete_eq_filter a l

theorem replaceFuel_map (a b : Char) (n : Nat) (l : List Char) (h : l.length ≤ n) :
    replaceFuel [a] [b] n l = l.map (fun c => if c = a then b else c) := by
  rw [replaceFuel_single a [b] n l h]
  exact foldr_subst_eq_map a b l

/-- Python single-character deletion `s.replace(c, "")` removes exactly the
occurrences of `c`. -/
theorem pyReplace_delete_char (a : Char) (s : String) :
    pyReplace (String.mk [a]) "" s = String.mk (s.data.filter (fun c => c ≠ a)) := by
  have hne : String.mk [a] ≠ "" := by
    intro h
    have : ([a] : List Char) = [] := congrArg String.data h
    simp at this
  unfold pyReplace
  rw [if_neg hne, replaceFuel_delete a s.data.length s.data (Nat.le_refl _)]

/-- Python single-character substitution `s.replace(a, b)` maps each
occurrence of `a` to `b`. -/
theorem pyReplace_map_char (a b : Char) (s : String) :
    pyReplace (String.mk [a]) (String.mk [b]) s =
      String.mk (s.data.map (fun c => if c = a then b else c)) := by
  have hne : String.mk [a] ≠ "" := by
    intro h
    have : ([a] : List Char) = [] := congrArg String.data h
    simp at this
  unfold pyReplace
  rw [if_neg hne, replaceFuel_map a b s.data.length s.data (Nat.le_refl _)]

theorem strJoin_append (xs ys : List String) :
    strJoin (xs ++ ys) = strJoin xs ++ strJoin ys := by
  induction xs with
  | nil => simp [strJoin]
  | cons x t ih => simp [strJoin, ih, String.append_assoc]

theorem isJobNameChar_space : isJobNameChar ' ' = false := by decide

theorem filter_jobname_fused (l : List Char) :
    l.filter (fun a => isJobNameChar a && !decide (a = ' ')) =
      l.filter isJobNameChar := by
  induction l with
  | nil => rfl
  | cons c t ih =>
    by_cases hc : c = ' '
    · subst hc
      simp [List.filter_cons, isJobNameChar_space, ih]
    · cases hj : isJobNameChar c <;> simp [List.filter_cons, hc, hj, ih]

theorem dropWhile_of_all {p : Char → Bool} (l : List Char) (h : l.all p = true) :
    l.dropWhile p = [] := by
  induction l with
  | nil => simp
  | cons c t ih =>
    simp only [List.all_cons, Bool.and_eq_true] at h
    simp [List.dropWhile_cons, h.1, ih h.2]

theorem pyStrip_of_all_space (l : List Char) (h : l.all isPySpace = true) :
    pyStrip (String.mk l) = "" := by
  unfold pyStrip
  have h1 : l.dropWhile isPySpace = [] := dropWhile_of_all l h
  simp [h1]

theorem create_receipt_none_of_fst (nowIso : String) (pid vid : Option String)
    (rk jn : String) (h : (create_receipt nowIso pid vid rk jn).1 = none) :
    (create_receipt nowIso pid vid rk jn).2 = none := by
  unfold create_receipt at h ⊢
  by_cases hc : (pyFalsyStrOpt vid || pyFalsyStrOpt pid) = true
  · simp [hc]
  · simp [hc] at h

theorem get_patient_info_effects_shape
    (jobs : String → Except Unit MedicalScribeJob)
    (head : String → Except Unit (List (String × String)))
    (job_name bucket : String) :
    ∀ e ∈ (get_patient_info_from_job jobs head job_name bucket).2,
      (∃ n, e = .getMedicalScribeJob n) ∨ (∃ k, e = .headObject k) := by
  unfold get_patient_info_from_job
  cases hj : jobs job_name with
  | error _ => simp
  | ok job =>
    by_cases hm : job.MediaFileUri.getD "" = "" <;> simp [hm]

/-- C7: the generated job name equals "hs-" ++ patient_id ++ "-" ++
sanitized_name ++ "-" ++ timestamp, where sanitized_name keeps exactly the
characters of patient_name inside the class [A-Za-z0-9-], and timestamp is
the instant formatted as YYYYMMDD-HHMMSS with zero-padded fields. -/
theorem C7_job_name_shape (patient_id patient_name : String) (now : PyDateTime) :
    generate_job_name patient_id patient_name now =
      "hs-" ++ patient_id ++ "-" ++
        String.mk (patient_name.data.filter isJobNameChar) ++ "-" ++
        (padNum 4 now.year ++ padNum 2 now.month ++ padNum 2 now.day ++ "-" ++
          padNum 2 now.hour ++ padNum 2 now.minute ++ padNum 2 now.second) := by
  unfold generate_job_name reSubKeepJobNameChars formatTimestamp
  have hsp : (" " : String) = String.mk [' '] := rfl
  rw [hsp, pyReplace_delete_char ' ' patient_name]
  apply String.ext
  simp [String.data_append, filter_jobname_fused]

/-- C6: when the attribute lookup succeeds the extractor returns the four
fields verbatim from the attributes with the documented defaults, the name
with every hyphen replaced by a space; when the lookup fails with a client
error it falls back to the filename, the patient id being the text before
the first underscore of the last path segment of the key and every other
field defaulted.  The extractor is total, so it never raises for
missing-metadata conditions. -/
theorem C6_metadata_extractor (headResult : Except Unit (List (String × String)))
    (key : String) :
    (∀ m, headResult = .ok m →
      extract_metadata_from_s3 headResult key =
        PatientMetadata.mk
          ((dget m "patient-id").getD "UNKNOWN")
          (String.mk (((dget m "patient-name").getD "Unknown").data.map
            (fun c => if c = '-' then ' ' else c)))
          ((dget m "patient-email").getD "")
          ((dget m "recording-id").getD ""))
    ∧ (headResult = .error () →
      extract_metadata_from_s3 headResult key =
        PatientMetadata.mk
          (String.mk (((pySplitChar '/' key).getLastD "").data.takeWhile
            (fun c => c ≠ '_')))
          "Unknown" "" "") := by
  constructor
  · intro m hm
    subst hm
    have hred : extract_metadata_from_s3 (.ok m) key =
        PatientMetadata.mk
          ((dget m "patient-id").getD "UNKNOWN")
          (pyReplace "-" " " ((dget m "patient-name").getD "Unknown"))
          ((dget m "patient-email").getD "")
          ((dget m "recording-id").getD "") := rfl
    have hd : ("-" : String) = String.mk ['-'] := rfl
    have hs : (" " : String) = String.mk [' '] := rfl
    rw [hred, hd, hs, pyReplace_map_char '-' ' ']
  · intro he
    subst he
    have hfn : ∀ filename : String,
        (pySplitChar '_' filename).headD "UNKNOWN" =
          String.mk (filename.data.takeWhile (fun c => c ≠ '_')) := by
      intro filename
      unfold pySplitChar
      match h : splitCharL '_' filename.data with
      | [] => exact absurd h (splitCharL_ne_nil '_' filename.data)
      | x :: xs =>
        have := splitCharL_head '_' filename.data
        rw [h] at this
        simp only [List.headD] at this
        simp [this]
    have hred : extract_metadata_from_s3 (.error ()) key =
        PatientMetadata.mk
          ((pySplitChar '_' ((pySplitChar '/' key).getLastD "")).headD "UNKNOWN")
          "Unknown" "" "" := rfl
    rw [hred, hfn]

/-- C4: a section named PLAN_OF_TREATMENT with non-blank concatenated text
renders as an ordered list whose items are the period-separated fragments,
trimmed, with empty fragments dropped; any other section name renders the
same text as an unordered list after first replacing " - " with ". "; and
the text "Rest. Hydrate. Follow up." yields exactly the three items Rest,
Hydrate, Follow up in either layout. -/
theorem C4_section_rendering (sec : ScribeSection) (name : String)
    (hname : sec.SectionName = some name)
    (hsum : (sec.Summary.getD []).isEmpty = false)
    (hraw : sectionRawText sec ≠ "") :
    build_section_html sec =
      sectionDivHtml
        ((dget SECTION_TITLES name).getD (pyTitle (pyReplace "_" " " name)))
        (if name = "PLAN_OF_TREATMENT" then
          numberedListHtml (periodItems (sectionRawText sec))
        else
          bulletListHtml (periodItems (pyReplace " - " ". " (sectionRawText sec))))
    ∧ periodItems "Rest. Hydrate. Follow up." = ["Rest", "Hydrate", "Follow up"]
    ∧ periodItems (pyReplace " - " ". " "Rest. Hydrate. Follow up.") =
        ["Rest", "Hydrate", "Follow up"] := by
  refine ⟨?_, by decide, by decide⟩
  unfold build_section_html
  rw [hname]
  simp only [Option.getD_some, hsum, Bool.false_eq_true, if_false]
  rw [if_neg hraw]
  unfold text_to_numbered text_to_bullets
  by_cases hp : name = "PLAN_OF_TREATMENT"
  · simp [hp, if_neg hraw]
  · simp [hp, if_neg hraw]

/-- C5: a section whose Summary list is empty, or whose space-joined
SummarizedSegment fragments consist only of whitespace, renders to the
empty string, and therefore contributes nothing to the assembled report
document. -/
theorem C5_blank_section_omitted (sec : ScribeSection)
    (h : sec.Summary.getD [] = [] ∨
      ((strJoinSep " " ((sec.Summary.getD []).map
        (fun s => s.SummarizedSegment.getD ""))).data.all isPySpace = true)) :
    build_section_html sec = "" ∧
      ∀ (pre post : List ScribeSection) (patient_info : PatientInfo),
        build_patient_report (pre ++ sec :: post) patient_info =
          build_patient_report (pre ++ post) patient_info := by
  have hempty : build_section_html sec = "" := by
    unfold build_section_html
    rcases h with h | h
    · simp [h]
    · by_cases hs : (sec.Summary.getD []).isEmpty
      · simp [hs]
      · have hraw : sectionRawText sec = "" := by
          unfold sectionRawText
          have := pyStrip_of_all_space _ h
          simpa using this
        simp [hs, hraw]
  refine ⟨hempty, ?_⟩
  intro pre post patient_info
  unfold build_patient_report
  rw [List.map_append, List.map_cons, List.map_append,
    strJoin_append, strJoin_append]
  show reportHeaderHtml patient_info ++
      (strJoin (pre.map build_section_html) ++
        strJoin (build_section_html sec :: post.map build_section_html)) ++
      reportFooterHtml = _
  rw [hempty]
  show reportHeaderHtml patient_info ++
      (strJoin (pre.map build_section_html) ++
        ("" ++ strJoin (post.map build_section_html))) ++
      reportFooterHtml = _
  rw [String.empty_append]

/-- C3: an ingestion event whose key does not start with "input/" is
answered with a skipped status and an empty effect trace: no metadata head
lookup and no job submission happen. -/
theorem C3_skip_non_input (W : IngestWorld) (event : Json) (d : EventDetail)
    (hd : extract_event_details event = .ok d)
    (hk : pyStartsWith d.key "input/" = false) :
    ingestion_handler W event =
      (.ok (.skipped "skipped" "File not in input directory"), []) := by
  unfold ingestion_handler
  rw [hd]
  simp [hk]

theorem finish_after_email_fst (res : ReportResult) (effs : List Effect)
    (sendAttempt : Option Effect) (sesOutcome : Except Unit Unit) :
    (finish_after_email res effs sendAttempt sesOutcome).1 = .ok res := by
  unfold finish_after_email
  cases sendAttempt with
  | none => rfl
  | some eff => cases sesOutcome <;> rfl

theorem finish_after_email_snd (res : ReportResult) (effs : List Effect)
    (sendAttempt : Option Effect) (sesOutcome : Except Unit Unit) :
    (finish_after_email res effs sendAttempt sesOutcome).2 =
      effs ++ (match sendAttempt with | none => [] | some eff => [eff]) := by
  unfold finish_after_email
  cases sendAttempt with
  | none => simp
  | some eff => cases sesOutcome <;> rfl

theorem report_render_phase_fst (W : ReportWorld) (record : S3EventRecord)
    (sections : List ScribeSection) :
    (report_render_phase W record sections).1 =
      .ok (ReportResult.mk "Report generated" (rp_report_key record)
        (rp_cr W record).1) :=
  finish_after_email_fst _ _ _ _

theorem report_render_phase_snd (W : ReportWorld) (record : S3EventRecord)
    (sections : List ScribeSection) :
    (report_render_phase W record sections).2 =
      (rp_pr W record).2 ++
        [Effect.getObject record.key,
         Effect.putObject (rp_report_key record)
           (.htmlReport (rp_html W record sections))] ++
        (match (rp_cr W record).2 with
          | some kr => [Effect.putObject kr.1 (.receiptJson kr.2)]
          | none => []) ++
        (match send_patient_email (rp_pr W record).1.1 W.sourceEmail
            (rp_html W record sections) with
          | none => []
          | some eff => [eff]) := by
  have h := finish_after_email_snd
    (ReportResult.mk "Report generated" (rp_report_key record) (rp_cr W record).1)
    ((rp_pr W record).2 ++
      [Effect.getObject record.key,
       Effect.putObject (rp_report_key record)
         (.htmlReport (rp_html W record sections))] ++
      (match (rp_cr W record).2 with
        | some kr => [Effect.putObject kr.1 (.receiptJson kr.2)]
        | none => []))
    (send_patient_email (rp_pr W record).1.1 W.sourceEmail
      (rp_html W record sections))
    W.sesOutcome
  exact h

theorem send_patient_email_shape (patient_info : PatientInfo)
    (source_email : Option String) (html : String) (e : Effect)
    (h : send_patient_email patient_info source_email html = some e) :
    ∃ s d subj b, e = .sendEmail s d subj b := by
  unfold send_patient_email at h
  by_cases h1 : patient_info.patient_email = ""
  · simp [h1] at h
  · cases source_email with
    | none => simp [h1] at h
    | some src =>
      by_cases h2 : src = ""
      · simp [h1, h2] at h
      · simp [h1, h2] at h
        exact ⟨_, _, _, _, h.symm⟩

/-- C4 witness: the treatment-plan section with the example text renders as
an ordered list with exactly the three trimmed items. -/
theorem C4_section_rendering_witness :
    build_section_html sectionC4 =
      sectionDivHtml "Treatment Plan"
        (numberedListHtml ["Rest", "Hydrate", "Follow up"]) := by
  have h := (C4_section_rendering sectionC4 "PLAN_OF_TREATMENT" rfl
    (by decide) (by decide)).1
  rw [h]
  decide

/-- C6 witness: verbatim extraction with hyphen-to-space name normalization
on a fully attributed object, and the filename fallback on a client error. -/
theorem C6_metadata_extractor_witness :
    extract_metadata_from_s3
        (.ok [("patient-id", "P7"), ("patient-name", "Jane-Doe"),
              ("patient-email", "j@x.com"), ("recording-id", "R1")])
        "input/PAT9_x.webm" =
      PatientMetadata.mk "P7" "Jane Doe" "j@x.com" "R1"
    ∧ extract_metadata_from_s3 (.error ()) "input/PAT9_x.webm" =
      PatientMetadata.mk "PAT9" "Unknown" "" "" := by
  constructor
  · have h := (C6_metadata_extractor
      (.ok [("patient-id", "P7"), ("patient-name", "Jane-Doe"),
            ("patient-email", "j@x.com"), ("recording-id", "R1")])
      "input/PAT9_x.webm").1 _ rfl
    rw [h]
    decide
  · have h := (C6_metadata_extractor (.error ()) "input/PAT9_x.webm").2 rfl
    rw [h]
    decide

/-- C5 witness: a whitespace-only section renders to the empty string and
drops out of a concrete report. -/
theorem C5_blank_section_omitted_witness :
    build_section_html sectionC5 = "" ∧
      build_patient_report [sectionC5] (PatientInfo.mk "P1" "Jane" "" "" "D") =
        build_patient_report [] (PatientInfo.mk "P1" "Jane" "" "" "D") := by
  have h := C5_blank_section_omitted sectionC5 (Or.inr (by decide))
  refine ⟨h.1, ?_⟩
  have h2 := h.2 [] [] (PatientInfo.mk "P1" "Jane" "" "" "D")
  simpa using h2

/-- C3 witness: the concrete out-of-path event is skipped with no external
calls. -/
theorem C3_skip_non_input_witness :
    ingestion_handler WIngC3 eventC3 =
      (.ok (.skipped "skipped" "File not in input directory"), []) :=
  C3_skip_non_input WIngC3 eventC3 (EventDetail.mk "b" "outside/a.webm")
    (by rfl) (by decide)

/-- C2: create_receipt returns no location and performs no write when the
patient id or the visit id is missing or empty; with both non-empty it
writes exactly one receipt with fields status, report_path, job_name,
completed_at at key input/(patient-id)/(visit-id)/receipt.json and returns
that key; and a report-handler invocation that returns successfully always
wrote the HTML report, while a successful run without a receipt location
wrote no receipt. -/
theorem C2_receipt_behaviour (nowIso : String) (patient_id visit_id : Option String)
    (report_key job_name : String) :
    ((pyFalsyStrOpt patient_id = true ∨ pyFalsyStrOpt visit_id = true) →
      create_receipt nowIso patient_id visit_id report_key job_name = (none, none))
    ∧ (∀ p v, patient_id = some p → visit_id = some v → p ≠ "" → v ≠ "" →
      create_receipt nowIso patient_id visit_id report_key job_name =
        (some ("input/" ++ p ++ "/" ++ v ++ "/receipt.json"),
         some ("input/" ++ p ++ "/" ++ v ++ "/receipt.json",
           Receipt.mk "COMPLETED" report_key job_name (nowIso ++ "Z"))))
    ∧ (∀ (W : ReportWorld) (event : Json) (res : ReportResult) (effs : List Effect),
      report_handler W event = (.ok res, effs) →
      ((∃ html, Effect.putObject res.report_key (.htmlReport html) ∈ effs)
        ∧ (res.receipt_key = none →
            ∀ k r, Effect.putObject k (.receiptJson r) ∉ effs))) := by
  refine ⟨?_, ?_, ?_⟩
  · intro h
    have hcond : (pyFalsyStrOpt visit_id || pyFalsyStrOpt patient_id) = true := by
      rcases h with h | h <;> simp [h]
    unfold create_receipt
    simp [hcond]
  · intro p v hp hv hpne hvne
    subst hp
    subst hv
    have h1 : pyFalsyStrOpt (some v) = false := by
      simp [pyFalsyStrOpt, hvne]
    have h2 : pyFalsyStrOpt (some p) = false := by
      simp [pyFalsyStrOpt, hpne]
    have hkey : ("input" ++ "/" ++ p ++ "/" ++ v ++ "/" ++ "receipt.json" : String) =
        "input/" ++ p ++ "/" ++ v ++ "/receipt.json" := by
      apply String.ext
      simp [String.data_append]
    unfold create_receipt
    simp [h1, h2, hkey]
    apply String.ext
    simp [String.data_append]
  · intro W event res effs hrun
    unfold report_handler at hrun
    cases hx : extract_s3_event_record event with
    | error e =>
      rw [hx] at hrun
      simp at hrun
    | ok record =>
      rw [hx] at hrun
      dsimp only at hrun
      cases hs : W.summaryDoc record.key with
      | error u =>
        rw [hs] at hrun
        simp at hrun
      | ok sections =>
        rw [hs] at hrun
        dsimp only at hrun
        have hfst : (Except.ok (ReportResult.mk "Report generated"
            (rp_report_key record) (rp_cr W record).1) :
              Except PyErr ReportResult) = Except.ok res := by
          rw [← report_render_phase_fst W record sections, hrun]
        have hres : res = ReportResult.mk "Report generated"
            (rp_report_key record) (rp_cr W record).1 :=
          (Except.ok.inj hfst).symm
        have h2 : (report_render_phase W record sections).2 = effs := by
          rw [hrun]
        rw [report_render_phase_snd] at h2
        subst h2
        constructor
        · refine ⟨rp_html W record sections, ?_⟩
          rw [hres]
          simp
        · intro hnone k r hmem
          rw [hres] at hnone
          have hc1 : (rp_cr W record).1 = none := hnone
          have hc2 : (rp_cr W record).2 = none :=
            create_receipt_none_of_fst _ _ _ _ _ hc1
          rw [hc2] at hmem
          rcases hsend : send_patient_email (rp_pr W record).1.1 W.sourceEmail
              (rp_html W record sections) with _ | eff
          · rw [hsend] at hmem
            simp [List.mem_append] at hmem
            rcases get_patient_info_effects_shape W.jobs W.head
              (rp_job_name record) record.bucket _ hmem with ⟨n, hn⟩ | ⟨kk, hk⟩ <;>
              simp_all
          · rw [hsend] at hmem
            rcases send_patient_email_shape _ _ _ _ hsend with ⟨s, d, subj, b, hb⟩
            rw [hb] at hmem
            simp [List.mem_append] at hmem
            rcases get_patient_info_effects_shape W.jobs W.head
              (rp_job_name record) record.bucket _ hmem with ⟨n, hn⟩ | ⟨kk, hk⟩ <;>
              simp_all

/-- C2 witness: a missing patient id skips the receipt, concrete non-empty
ids produce the receipt at the derived key, and a concrete successful
handler run wrote the report and no receipt. -/
theorem C2_receipt_behaviour_witness :
    create_receipt "2026-01-01T00:00:00" none (some "V1") "rk" "jn" = (none, none)
    ∧ create_receipt "2026-01-01T00:00:00" (some "P1") (some "V1") "rk" "jn" =
      (some "input/P1/V1/receipt.json",
       some ("input/P1/V1/receipt.json",
         Receipt.mk "COMPLETED" "rk" "jn" "2026-01-01T00:00:00Z"))
    ∧ ((∃ html, Effect.putObject "patient-reports/hs-job/summary.html"
          (.htmlReport html) ∈ (report_handler WRepC2 eventRep).2)
       ∧ ∀ k r, Effect.putObject k (.receiptJson r) ∉
          (report_handler WRepC2 eventRep).2) := by
  refine ⟨?_, ?_, ?_⟩
  · exact (C2_receipt_behaviour "2026-01-01T00:00:00" none (some "V1")
      "rk" "jn").1 (Or.inl rfl)
  · have h := (C2_receipt_behaviour "2026-01-01T00:00:00" (some "P1") (some "V1")
      "rk" "jn").2.1 "P1" "V1" rfl rfl (by decide) (by decide)
    rw [h]
    decide
  · have hres : (report_handler WRepC2 eventRep).1 =
        .ok (ReportResult.mk "Report generated"
          "patient-reports/hs-job/summary.html" none) := by rfl
    have hrun : report_handler WRepC2 eventRep =
        (.ok (ReportResult.mk "Report generated"
          "patient-reports/hs-job/summary.html" none),
         (report_handler WRepC2 eventRep).2) := by
      rw [← hres]
    have h := (C2_receipt_behaviour "x" none none "x" "x").2.2
      WRepC2 eventRep _ _ hrun
    exact ⟨h.1, h.2 rfl⟩

/-- C8: the notifier is best-effort: it returns without sending when the
patient email is empty or the sender address is absent, sends exactly one
HTML email otherwise, and a transport error raised by the send is caught by
the report handler, whose returned record is unchanged. -/
theorem C8_email_best_effort :
    (∀ (patient_info : PatientInfo) (source_email : Option String) (html : String),
      (patient_info.patient_email = "" ∨ source_email.getD "" = "") →
      send_patient_email patient_info source_email html = none)
    ∧ (∀ (patient_info : PatientInfo) (src html : String),
      patient_info.patient_email ≠ "" → src ≠ "" →
      send_patient_email patient_info (some src) html =
        some (.sendEmail src patient_info.patient_email
          ("Your Visit Summary - " ++ patient_info.patient_name) html))
    ∧ (∀ (W : ReportWorld) (event : Json) (o1 o2 : Except Unit Unit),
      (report_handler { W with sesOutcome := o1 } event).1 =
        (report_handler { W with sesOutcome := o2 } event).1) := by
  refine ⟨?_, ?_, ?_⟩
  · intro patient_info source_email html h
    unfold send_patient_email
    rcases h with h | h
    · simp [h]
    · cases source_email with
      | none =>
        by_cases he : patient_info.patient_email = "" <;> simp [he]
      | some s =>
        have hs' : s = "" := by simpa using h
        by_cases he : patient_info.patient_email = "" <;> simp [he, hs']
  · intro patient_info src html h1 h2
    unfold send_patient_email
    simp [h1, h2]
  · intro W event o1 o2
    obtain ⟨jobs, head, sum, src, ses, now⟩ := W
    show (report_handler (ReportWorld.mk jobs head sum src o1 now) event).1 =
      (report_handler (ReportWorld.mk jobs head sum src o2 now) event).1
    unfold report_handler
    cases hx : extract_s3_event_record event with
    | error e => rfl
    | ok record =>
      dsimp only
      cases hs : sum record.key with
      | error u => rfl
      | ok sections =>
        dsimp only
        rw [report_render_phase_fst, report_render_phase_fst]
        rfl

/-- C8 witness: a concrete empty recipient is skipped, and a concrete
non-empty recipient with a configured sender yields exactly the one send. -/
theorem C8_email_best_effort_witness :
    send_patient_email (PatientInfo.mk "P" "N" "" "" "D") (some "s@x.com") "<p>h</p>" = none
    ∧ send_patient_email (PatientInfo.mk "P" "N" "p@x.com" "" "D")
        (some "s@x.com") "<p>h</p>" =
      some (.sendEmail "s@x.com" "p@x.com" "Your Visit Summary - N" "<p>h</p>") := by
  constructor
  · exact C8_email_best_effort.1 (PatientInfo.mk "P" "N" "" "" "D")
      (some "s@x.com") "<p>h</p>" (Or.inl rfl)
  · have h := C8_email_best_effort.2.1 (PatientInfo.mk "P" "N" "p@x.com" "" "D")
      "s@x.com" "<p>h</p>" (by decide) (by decide)
    rw [h]
    decide

/-- C9: a trigger event whose raw field-access chain hits a missing key
makes the handler raise the invalid-input ValueError with an empty effect
trace, so no external call and no partial side effect happens. -/
theorem C9_malformed_event_rejected (eventI eventR : Json) :
    (event_details_chain eventI = .error .keyError →
      ∀ W : IngestWorld, ingestion_handler W eventI =
        (.error (.valueError "Invalid event structure: missing field"), []))
    ∧ (s3_record_chain eventR = .error .keyError →
      ∀ W : ReportWorld, report_handler W eventR =
        (.error (.valueError "Invalid S3 event structure: missing field"), [])) := by
  constructor
  · intro h W
    unfold ingestion_handler extract_event_details
    rw [h]
  · intro h W
    unfold report_handler extract_s3_event_record
    rw [h]

/-- C9 witness: the empty-object event is rejected by both handlers with a
ValueError and no effects. -/
theorem C9_malformed_event_rejected_witness :
    ingestion_handler WIngC3 (Json.obj []) =
      (.error (.valueError "Invalid event structure: missing field"), [])
    ∧ report_handler WRepC2 (Json.obj []) =
      (.error (.valueError "Invalid S3 event structure: missing field"), []) :=
  ⟨(C9_malformed_event_rejected (Json.obj []) (Json.obj [])).1 rfl WIngC3,
   (C9_malformed_event_rejected (Json.obj []) (Json.obj [])).2 rfl WRepC2⟩

/-- C1 counterexample: with the job tags created from mC1 recoverable as
tag@x.com, a readable audio attribute head@y.com ends up as the
patient_email of the PatientInfo used for rendering, so the tags are not
the sole channel feeding the report-time patient data. -/
theorem C1_tags_not_sole_channel_counterexample :
    dget (convert_tags_to_dict (create_healthscribe_tags mC1)) "patient_email" =
      some "tag@x.com"
    ∧ (get_patient_info_from_job WjobsC1 WheadC1 "hs-job" "b").1.1.patient_email =
      "head@y.com" := by
  constructor
  · rfl
  · rfl

/-- C1 (amended): converting the creation-time tag list back to a
dictionary yields exactly the four metadata fields; the report stage seeds
its PatientInfo from these tags, and they are the only source whenever the
audio-attribute lookup is unavailable (no media URI or a client error);
patient_id and recording_id always come from the tags, while patient_email
and patient_name can be overridden by readable non-empty audio
attributes. -/
theorem C1_tag_roundtrip_amended (m : PatientMetadata) :
    (dget (convert_tags_to_dict (create_healthscribe_tags m)) "patient_id" =
        some m.patient_id
      ∧ dget (convert_tags_to_dict (create_healthscribe_tags m)) "patient_name" =
        some m.patient_name
      ∧ dget (convert_tags_to_dict (create_healthscribe_tags m)) "patient_email" =
        some m.patient_email
      ∧ dget (convert_tags_to_dict (create_healthscribe_tags m)) "recording_id" =
        some m.recording_id)
    ∧ (∀ (jobs : String → Except Unit MedicalScribeJob)
        (head : String → Except Unit (List (String × String)))
        (job_name bucket : String) (ct mu : Option String),
        jobs job_name = .ok (MedicalScribeJob.mk
          (some (create_healthscribe_tags m)) ct mu) →
        (mu.getD "" = "" ∨ head (audio_key_of bucket (mu.getD "")) = .error ()) →
        ∃ vd, (get_patient_info_from_job jobs head job_name bucket).1.1 =
          PatientInfo.mk m.patient_id m.patient_name m.patient_email
            m.recording_id vd)
    ∧ (∀ (jobs : String → Except Unit MedicalScribeJob)
        (head : String → Except Unit (List (String × String)))
        (job_name bucket : String) (ct mu : Option String),
        jobs job_name = .ok (MedicalScribeJob.mk
          (some (create_healthscribe_tags m)) ct mu) →
        ((get_patient_info_from_job jobs head job_name bucket).1.1.patient_id =
            m.patient_id
          ∧ (get_patient_info_from_job jobs head job_name bucket).1.1.recording_id =
            m.recording_id)) := by
  refine ⟨⟨rfl, rfl, rfl, rfl⟩, ?_, ?_⟩
  · intro jobs head job_name bucket ct mu hjob hmedia
    unfold get_patient_info_from_job
    rw [hjob]
    dsimp only
    by_cases hm : mu.getD "" = ""
    · rw [if_pos hm]
      exact ⟨_, rfl⟩
    · rcases hmedia with hmedia | hh
      · exact absurd hmedia hm
      · rw [if_neg hm]
        dsimp only
        rw [hh]
        exact ⟨_, rfl⟩
  · intro jobs head job_name bucket ct mu hjob
    unfold get_patient_info_from_job
    rw [hjob]
    dsimp only
    by_cases hm : mu.getD "" = ""
    · rw [if_pos hm]
      exact ⟨rfl, rfl⟩
    · rw [if_neg hm]
      dsimp only
      cases hh : head (audio_key_of bucket (mu.getD "")) with
      | error u =>
        exact ⟨rfl, rfl⟩
      | ok metadata =>
        dsimp only
        by_cases he : (dget metadata "patient-email").getD "" ≠ "" <;>
          by_cases hn : (dget metadata "patient-name").getD "" ≠ "" <;>
            simp [he, hn] <;> exact ⟨rfl, rfl⟩

/-- C1 witness: the concrete roundtrip recovers the tag email, and with the
audio attributes unavailable the PatientInfo equals the tag metadata. -/
theorem C1_tag_roundtrip_amended_witness :
    dget (convert_tags_to_dict (create_healthscribe_tags mC1)) "patient_email" =
      some mC1.patient_email
    ∧ (∃ vd, (get_patient_info_from_job WjobsC1NoMedia WheadErr "hs-job" "b").1.1 =
        PatientInfo.mk "PAT-1" "Jane Doe" "tag@x.com" "R1" vd) := by
  constructor
  · exact (C1_tag_roundtrip_amended mC1).1.2.2.1
  · exact (C1_tag_roundtrip_amended mC1).2.1 WjobsC1NoMedia WheadErr "hs-job" "b"
      (some "2026-01-01T00:00:00") none rfl (Or.inl rfl)

/-- C10 counterexample: the audio attributes are readable and contain a
patient-email attribute (with empty value), yet the PatientInfo keeps the
tag-derived email tag@x.com instead of the attribute value, so attribute
presence alone does not override. -/
theorem C10_empty_attribute_no_override_counterexample :
    dget [("patient-email", "")] "patient-email" = some ""
    ∧ WheadC10 (audio_key_of "b" "s3://b/input/a.webm") =
      .ok [("patient-email", "")]
    ∧ (get_patient_info_from_job WjobsC1 WheadC10 "hs-job" "b").1.1.patient_email =
      "tag@x.com" := by
  refine ⟨rfl, rfl, rfl⟩

/-- C10 (amended): when the job is readable, it has a media URI and the
audio-attribute lookup succeeds, a non-empty patient-email attribute
replaces the tag-derived email and a non-empty patient-name attribute
replaces the tag-derived name after hyphen-to-space normalization; an
absent or empty attribute leaves the tag-derived value in place. -/
theorem C10_audio_attribute_override_amended
    (jobs : String → Except Unit MedicalScribeJob)
    (head : String → Except Unit (List (String × String)))
    (job_name bucket : String) (tagsOpt : Option (List Tag))
    (ct : Option String) (mu : String) (metadata : List (String × String))
    (hjob : jobs job_name = .ok (MedicalScribeJob.mk tagsOpt ct (some mu)))
    (hmu : mu ≠ "")
    (hhead : head (audio_key_of bucket mu) = .ok metadata) :
    ((get_patient_info_from_job jobs head job_name bucket).1.1.patient_email =
      if (dget metadata "patient-email").getD "" ≠ ""
      then (dget metadata "patient-email").getD ""
      else (dget (convert_tags_to_dict (tagsOpt.getD [])) "patient_email").getD "")
    ∧ ((get_patient_info_from_job jobs head job_name bucket).1.1.patient_name =
      if (dget metadata "patient-name").getD "" ≠ ""
      then pyReplace "-" " " ((dget metadata "patient-name").getD "")
      else (dget (convert_tags_to_dict (tagsOpt.getD [])) "patient_name").getD
        "Patient") := by
  unfold get_patient_info_from_job
  rw [hjob]
  dsimp only
  have hgd : (some mu).getD "" = mu := rfl
  rw [hgd, if_neg hmu, hhead]
  dsimp only
  by_cases he : (dget metadata "patient-email").getD "" ≠ "" <;>
    by_cases hn : (dget metadata "patient-name").getD "" ≠ "" <;>
      simp [he, hn]

/-- C10 witness: concrete non-empty audio attributes override both fields,
the name with hyphens replaced by spaces. -/
theorem C10_audio_attribute_override_amended_witness :
    (get_patient_info_from_job WjobsC10W WheadC10W "hs-job" "b").1.1.patient_email =
      "head@y.com"
    ∧ (get_patient_info_from_job WjobsC10W WheadC10W "hs-job" "b").1.1.patient_name =
      "Ann Lee" := by
  have h := C10_audio_attribute_override_amended WjobsC10W WheadC10W "hs-job" "b"
    (some [Tag.mk "patient_email" "tag@x.com", Tag.mk "patient_name" "Jane Doe"])
    none "s3://b/input/a.webm"
    [("patient-email", "head@y.com"), ("patient-name", "Ann-Lee")]
    rfl (by decide) rfl
  constructor
  · rw [h.1]
    decide
  · rw [h.2]
    decide

end ClinicalAI
